import Mathlib

/-!
Shallow embedding of `logic/interfuse/confocal_scanner_motor_interfuse.py`
(class `ScannerMotorInterfuse`) from the qudi fork `diamond2nv/qudi`.

Modelling choices, uniform throughout:
* Python floats are modelled as `ℚ` (`np.float(x)` is the identity here).
* `self._current_position` is a `List ℚ` (length 4 in every real run).
* `self._scanner_position_ranges` is a `List (ℚ × ℚ)` for the position
  setter, and a `List (List ℚ)` where the range-table *shape* itself is
  under scrutiny (`set_position_range`).
* A Python call that raises an uncaught exception is an `Except.error`;
  a call that returns normally is `Except.ok` of its return value.
* External collaborators (stage hardware, counter logic) are passed in as
  explicit parameters describing their observable behaviour.
-/

set_option autoImplicit false

namespace ScannerMotorInterfuse

/-! ### scanner_set_position (source lines 238-285)

The Python body validates and *immediately writes* each provided axis in
the order x, y, z, a:

  if x is not None:
      if not(range[0][0] <= x <= range[0][1]): log; return -1
      self._current_position[0] = np.float(x)
      move_dict['x'] = self._current_position[0]
  ... same for y, z, a ...
  try: self._stage_hw.move_abs(move_dict); return 0
  except Exception: log; return -1
-/

/-- Result of one `scanner_set_position` call: the returned error code,
the final `_current_position` list, and whether `move_abs` was invoked
on the stage hardware (it is invoked exactly when every provided
coordinate passed its range check, even if the device call then raises). -/
structure SetPosResult where
  code : Int
  pos : List ℚ
  attempted : Bool
  deriving DecidableEq, Repr

/-- One axis block of `scanner_set_position`: axis `i` with bounds taken
from the range table. `none` input means the coordinate was not provided
(Python `None`), so the block is skipped; a provided coordinate is range
checked inclusively and, on success, written into `_current_position[i]`.
Returns `none` when the range check fails (the Python `return -1`). -/
def axStep (R : List (ℚ × ℚ)) (i : Nat) (v? : Option ℚ) (p : List ℚ) :
    Option (List ℚ) :=
  match v? with
  | none => some p
  | some v =>
      if (R.getD i (0, 0)).1 ≤ v ∧ v ≤ (R.getD i (0, 0)).2 then
        some (p.set i v)
      else
        none

/-- Shallow embedding of `scanner_set_position(x, y, z, a)`.
`R` is `_scanner_position_ranges`, `p` the `_current_position` on entry,
and `moveFails` tells whether the stage's `move_abs` raises. -/
def scanner_set_position (R : List (ℚ × ℚ)) (p : List ℚ)
    (x y z a : Option ℚ) (moveFails : Bool) : SetPosResult :=
  match axStep R 0 x p with
  | none => ⟨-1, p, false⟩
  | some p1 =>
    match axStep R 1 y p1 with
    | none => ⟨-1, p1, false⟩
    | some p2 =>
      match axStep R 2 z p2 with
      | none => ⟨-1, p2, false⟩
      | some p3 =>
        match axStep R 3 a p3 with
        | none => ⟨-1, p3, false⟩
        | some p4 =>
          if moveFails then ⟨-1, p4, true⟩ else ⟨0, p4, true⟩

/-- Shallow embedding of `get_scanner_position`: returns a copy of the
internal `_current_position` (no device query). -/
def get_scanner_position (p : List ℚ) : List ℚ := p

/-- Axis `i` was provided and its value fails the inclusive range check. -/
def badAxis (R : List (ℚ × ℚ)) (i : Nat) (v? : Option ℚ) : Bool :=
  match v? with
  | none => false
  | some v =>
      !(decide ((R.getD i (0, 0)).1 ≤ v) && decide (v ≤ (R.getD i (0, 0)).2))

/-- The in-place write an axis block performs when its coordinate is
provided (omitted axes leave the position untouched). -/
def applyAxis (i : Nat) (v? : Option ℚ) (p : List ℚ) : List ℚ :=
  match v? with
  | none => p
  | some v => p.set i v

/-- Position the interfuse is left with when `scanner_set_position`
returns `-1` from a range check: all axes processed strictly before the
first failing one have already been written. -/
def posAtValidationFailure (R : List (ℚ × ℚ)) (p : List ℚ)
    (x y z : Option ℚ) : List ℚ :=
  if badAxis R 0 x then p
  else if badAxis R 1 y then applyAxis 0 x p
  else if badAxis R 2 z then applyAxis 1 y (applyAxis 0 x p)
  else applyAxis 2 z (applyAxis 1 y (applyAxis 0 x p))

/-! ### set_position_range (source lines 147-183) and
get_position_range (lines 138-145)

Pitfall in the source: the two error logs inside the per-entry loop use
format specs that crash.  `'... {1:d} ...'.format(len(pos), pos)` applies
the `d` (integer) format spec to `pos`, a list, which raises `TypeError`
("unsupported format string passed to list.__format__"); likewise
`'{0:d}'.format(pos)` in the inverted-bounds branch.  So a wrong pair
arity or `min > max` raises out of `set_position_range` instead of
returning `-1`.  The wrong-axis-count branch formats `len(myrange)`, an
int, so it really does return `-1`. -/

/-- Argument passed to `set_position_range`:
`noneArg` is Python `None` (the default), `notArray` is any value failing
the `isinstance(myrange, (frozenset, list, set, tuple, np.ndarray))`
check, and `table rows` is an array-typed value whose entries are the
(variable-length) per-axis bound lists. -/
inductive RangeInput where
  | noneArg
  | notArray
  | table (rows : List (List ℚ))
  deriving DecidableEq, Repr

/-- Default range substituted for a `None` argument:
`[[0, 1e-6], [0, 1e-6], [0, 1e-6], [0, 1e-6]]`. -/
def defaultRange : List (List ℚ) :=
  [[0, 1 / 1000000], [0, 1 / 1000000], [0, 1 / 1000000], [0, 1 / 1000000]]

/-- The `for pos in myrange` loop of `set_position_range`.
`Except.error ()` models the `TypeError` raised by the broken `{:d}`
format spec in the two error-log calls; `Except.ok ()` means every entry
passed both checks. -/
def checkEntries : List (List ℚ) → Except Unit Unit
  | [] => .ok ()
  | pos :: rest =>
      if pos.length ≠ 2 then .error ()
      else if pos.getD 0 0 > pos.getD 1 0 then .error ()
      else checkEntries rest

/-- Shallow embedding of `set_position_range(myrange)`. `stored` is the
current `_scanner_position_ranges`; the result is `Except.error ()` when
the call raises, else `(returned code, _scanner_position_ranges after
the call)`. -/
def set_position_range (stored : List (List ℚ)) (input : RangeInput) :
    Except Unit (Int × List (List ℚ)) :=
  match input with
  | .notArray => .ok (-1, stored)
  | .noneArg =>
      if defaultRange.length ≠ 4 then .ok (-1, stored)
      else
        match checkEntries defaultRange with
        | .error _ => .error ()
        | .ok _ => .ok (0, defaultRange)
  | .table rows =>
      if rows.length ≠ 4 then .ok (-1, stored)
      else
        match checkEntries rows with
        | .error _ => .error ()
        | .ok _ => .ok (0, rows)

/-- Shallow embedding of `get_position_range`: returns the stored
`_scanner_position_ranges`. -/
def get_position_range (stored : List (List ℚ)) : List (List ℚ) := stored

/-! ### Activation position seeding
(`on_activate`, source lines 100-117, and `_get_scanner_position_init`,
lines 481-507)

`_get_scanner_position_init` tries `self._stage_hw.get_pos()` and builds
`[pos_dict['x'], pos_dict['y'], pos_dict['z'], 0]`.  A `KeyError`
(missing axis key, or `get_pos` itself raising `KeyError`) is logged and
the function *falls through to an implicit `return None`* — no retry.
Any other exception triggers `time.sleep(0.1)` and exactly one retry,
whose `KeyError` again yields `None` and whose other exceptions
propagate.  Back in `on_activate`, `np.array(None)` does NOT raise, so
the midpoint fallback in the `except:` arm runs only when the retried
`get_pos` raised a non-KeyError exception. -/

/-- Observable behaviour of one `self._stage_hw.get_pos()` call:
it returns a dict holding the listed optional keys, raises `KeyError`,
or raises some other exception. -/
inductive GetPosAttempt where
  | ret (x y z a : Option ℚ)
  | raiseKey
  | raiseOther
  deriving DecidableEq, Repr

/-- Outcome of one attempt of the body
`pos_dict = get_pos(); position = [pos_dict['x'], pos_dict['y'], pos_dict['z'], 0]`:
a position list, a `KeyError` (raised by `get_pos` or by a missing
dict key), or a non-KeyError exception. -/
inductive ReadOutcome where
  | pos (p : List ℚ)
  | keyErr
  | otherErr
  deriving DecidableEq, Repr

/-- Evaluates one attempt: the fourth stage key is read never, so the
built position always ends in `0`. -/
def readAttempt : GetPosAttempt → ReadOutcome
  | .ret (some x) (some y) (some z) _ => .pos [x, y, z, 0]
  | .ret _ _ _ _ => .keyErr
  | .raiseKey => .keyErr
  | .raiseOther => .otherErr

/-- Shallow embedding of `_get_scanner_position_init`, fed the outcomes
of the (at most two) `get_pos` calls.  Returns the function's Python
return value (`none` models the implicit `return None` after a logged
`KeyError`) paired with how many `get_pos` attempts were made;
`Except.error ()` is an exception propagating out of the function. -/
def getScannerPositionInit (a1 a2 : GetPosAttempt) :
    Except Unit (Option (List ℚ)) × Nat :=
  match readAttempt a1 with
  | .pos p => (.ok (some p), 1)
  | .keyErr => (.ok none, 1)
  | .otherErr =>
      match readAttempt a2 with
      | .pos p => (.ok (some p), 2)
      | .keyErr => (.ok none, 2)
      | .otherErr => (.error (), 2)

/-- Midpoints `0.5 * (range[i][0] + range[i][1])` of the four configured
axis ranges (`_middle_xyz_pos` in `on_activate`). -/
def midpoints (R : List (ℚ × ℚ)) : List ℚ :=
  (List.range 4).map fun i => ((R.getD i (0, 0)).1 + (R.getD i (0, 0)).2) / 2

/-- Result of the position-seeding part of `on_activate`: the seeded
`_current_position` (where Lean `none` models the degenerate
`np.array(None)` produced from a `None` return), the code `on_activate`
returns, and the number of `get_pos` attempts made. -/
structure InitResult where
  pos : Option (List ℚ)
  code : Int
  attempts : Nat
  deriving DecidableEq, Repr

/-- Shallow embedding of the `try/except/else` of `on_activate` around
`np.array(self._get_scanner_position_init())`: `np.array(None)` does not
raise, so the `except:` arm (midpoint fallback, `return -1`) runs only
when `_get_scanner_position_init` itself raised. -/
def activateSeed (R : List (ℚ × ℚ)) (a1 a2 : GetPosAttempt) : InitResult :=
  match getScannerPositionInit a1 a2 with
  | (.ok p?, n) => ⟨p?, 0, n⟩
  | (.error _, n) => ⟨some (midpoints R), -1, n⟩

/-! ### scan_line (source lines 316-363)

The source checks only
`isinstance(line_path, (frozenset, list, set, tuple, np.ndarray))` and
returns `np.array([-1.])` when that fails.  Then
`np.shape(line_path)[1]` raises `IndexError` for anything that is not at
least 2-dimensional (e.g. a 1-D array, or `[]`).  For an `m x N` array
the loop visits `i = 0 .. N-1`: it takes column `coords = line_path[:, i]`
(length `m`), calls
`scanner_set_position(x=coords[0], y=coords[1], z=coords[2], a=coords[3])`
— which raises `IndexError` when `m < 4`, and silently ignores the
returned error code otherwise — then calls `on_target()` for `i == 0`
and `time.sleep(self._dwell_delay)` for `i >= 1`, and finally samples
`np.mean(self._counter_logic.countdata[0, -self._dwell_cnt_bins:])`.
The `N` samples are returned as `np.array([count_data]).T`, an `N x 1`
column. -/

/-- Externally observable actions `scan_line` performs, in order:
a `move_abs` issued to the stage (with the 4 target coordinates), the
`on_target()` barrier, a `time.sleep` of the given duration, and the
read of the counter buffer for pixel `i`. -/
inductive ScanEvent where
  | move (target : List ℚ)
  | onTarget
  | sleep (d : ℚ)
  | sample (i : Nat)
  deriving DecidableEq, Repr

/-- Numpy slice `arr[-k:]` on a 1-D array: the last `k` entries, except
that `k = 0` denotes the whole array (`arr[-0:]` is `arr[0:]`), and a
`k` larger than the length also yields the whole array. -/
def lastSlice {α : Type} (k : Nat) (l : List α) : List α :=
  if k = 0 then l else l.drop (l.length - k)

/-- Arithmetic mean, `np.mean`, over `ℚ` (empty list gives `0` here;
the claims only use it on nonempty slices). -/
def listMean (l : List ℚ) : ℚ := l.sum / l.length

/-- The per-pixel loop of `scan_line` over the remaining pixel indices.
`col i` is the `i`-th column of the line path, `k` is `_dwell_cnt_bins`,
`d` is `_dwell_delay`, `buf i` is channel 0 of
`self._counter_logic.countdata` as it stands when pixel `i` is sampled,
`onTR` tells whether `on_target()` raises, and `mf i` whether the
stage's `move_abs` raises at pixel `i`.  Returns the collected samples
and event trace, or `Except.error` with the trace up to an uncaught
exception. -/
def scanPixels (R : List (ℚ × ℚ)) (col : Nat → List ℚ) (k : Nat) (d : ℚ)
    (buf : Nat → List ℚ) (onTR : Bool) (mf : Nat → Bool) :
    List Nat → List ℚ → Except (List ScanEvent) (List ℚ × List ScanEvent)
  | [], _ => .ok ([], [])
  | i :: rest, p =>
      let c := col i
      let r := scanner_set_position R p (some (c.getD 0 0)) (some (c.getD 1 0))
        (some (c.getD 2 0)) (some (c.getD 3 0)) (mf i)
      let mev : List ScanEvent := if r.attempted then [.move r.pos] else []
      if i = 0 ∧ onTR = true then .error mev
      else
        let wev : ScanEvent := if i = 0 then .onTarget else .sleep d
        let s := listMean (lastSlice k (buf i))
        match scanPixels R col k d buf onTR mf rest r.pos with
        | .error evs => .error (mev ++ wev :: .sample i :: evs)
        | .ok (ss, evs) => .ok (s :: ss, mev ++ wev :: .sample i :: evs)

/-- Argument passed to `scan_line`: a value failing the `isinstance`
array-type check, an array-typed 1-dimensional sequence, or a
rectangular 2-dimensional array given by its list of rows. -/
inductive LineInput where
  | notArray
  | arr1d (v : List ℚ)
  | arr2d (rows : List (List ℚ))
  deriving DecidableEq, Repr

/-- Observable result of a `scan_line` call: the `np.array([-1.])`
sentinel, an uncaught exception (with the events already performed), or
a normal return of the `N x 1` sample matrix (with the full event
trace). -/
inductive ScanResult where
  | sentinel
  | raised (events : List ScanEvent)
  | ok (samples : List (List ℚ)) (events : List ScanEvent)
  deriving DecidableEq, Repr

/-- Shallow embedding of `scan_line(line_path)`.  `R` is the range
table (as bound pairs), `p0` the `_current_position` on entry, and the
remaining parameters are as in `scanPixels`. -/
def scan_line (R : List (ℚ × ℚ)) (p0 : List ℚ) (input : LineInput)
    (k : Nat) (d : ℚ) (buf : Nat → List ℚ) (onTR : Bool)
    (mf : Nat → Bool) : ScanResult :=
  match input with
  | .notArray => .sentinel
  | .arr1d _ => .raised []
  | .arr2d rows =>
      match rows with
      | [] => .raised []
      | r0 :: _ =>
          if r0.length = 0 then .ok [] []
          else if rows.length < 4 then .raised []
          else
            match scanPixels R (fun i => rows.map fun r => r.getD i 0) k d buf
                onTR mf (List.range r0.length) p0 with
            | .error evs => .raised evs
            | .ok (ss, evs) => .ok (ss.map fun s => [s]) evs

/-- Selects the waiting and sampling events of a trace (discarding the
move commands), used to state the per-pixel wait/sample schedule
independently of whether each pixel's range checks let its move
through. -/
def nonMoveEv : ScanEvent → Bool
  | .move _ => false
  | _ => true

/-- The `scanner_set_position` call made at pixel `i` of a line scan:
all four coordinates of column `i` are provided, starting from
position `p`. -/
def pixelStep (R : List (ℚ × ℚ)) (col : Nat → List ℚ) (mf : Nat → Bool)
    (i : Nat) (p : List ℚ) : SetPosResult :=
  scanner_set_position R p (some ((col i).getD 0 0))
    (some ((col i).getD 1 0)) (some ((col i).getD 2 0))
    (some ((col i).getD 3 0)) (mf i)

/-- Internal position on entry to pixel `i` of a line scan that
started at `p0` (each pixel's call may leave the position partially or
fully updated, per `scanner_set_position`). -/
def posBefore (R : List (ℚ × ℚ)) (col : Nat → List ℚ) (mf : Nat → Bool)
    (p0 : List ℚ) : Nat → List ℚ
  | 0 => p0
  | i + 1 => (pixelStep R col mf i (posBefore R col mf p0 i)).pos

/-- The events of pixel `i`, in execution order: first the move
command (present exactly when every coordinate passed its range check),
then the `on_target` barrier for pixel 0 or the dwell sleep for every
later pixel, then the counter sample for the pixel. -/
def pixelTrace (R : List (ℚ × ℚ)) (col : Nat → List ℚ) (mf : Nat → Bool)
    (d : ℚ) (p0 : List ℚ) (i : Nat) : List ScanEvent :=
  (if (pixelStep R col mf i (posBefore R col mf p0 i)).attempted then
    [ScanEvent.move (pixelStep R col mf i (posBefore R col mf p0 i)).pos]
  else []) ++
  [(if i = 0 then ScanEvent.onTarget else ScanEvent.sleep d),
   ScanEvent.sample i]

/-! ## Theorems -/

lemma axStep_of_bad (R : List (ℚ × ℚ)) (i : Nat) (v? : Option ℚ) (p : List ℚ)
    (h : badAxis R i v? = true) : axStep R i v? p = none := by
  cases v? with
  | none => exact Bool.noConfusion h
  | some v =>
      have h' : (!(decide ((R.getD i (0, 0)).1 ≤ v) &&
          decide (v ≤ (R.getD i (0, 0)).2))) = true := h
      simp only [axStep]
      split
      case isTrue hc =>
          exfalso
          rw [decide_eq_true hc.1, decide_eq_true hc.2] at h'
          simp at h'
      case isFalse hc => rfl

lemma axStep_of_good (R : List (ℚ × ℚ)) (i : Nat) (v? : Option ℚ) (p : List ℚ)
    (h : badAxis R i v? = false) : axStep R i v? p = some (applyAxis i v? p) := by
  cases v? with
  | none => rfl
  | some v =>
      have h' : (!(decide ((R.getD i (0, 0)).1 ≤ v) &&
          decide (v ≤ (R.getD i (0, 0)).2))) = false := h
      simp only [axStep]
      split
      case isTrue hc => rfl
      case isFalse hc =>
          exfalso
          by_cases ha : (R.getD i (0, 0)).1 ≤ v
          · by_cases hb : v ≤ (R.getD i (0, 0)).2
            · exact hc ⟨ha, hb⟩
            · rw [decide_eq_false hb] at h'; simp at h'
          · rw [decide_eq_false ha] at h'; simp at h'

lemma badAxis_some (R : List (ℚ × ℚ)) (i : Nat) (v : ℚ) :
    badAxis R i (some v) =
      (!(decide ((R.getD i (0, 0)).1 ≤ v) &&
        decide (v ≤ (R.getD i (0, 0)).2))) := rfl

lemma badAxis_none (R : List (ℚ × ℚ)) (i : Nat) :
    badAxis R i none = false := rfl

lemma setPos_good (R : List (ℚ × ℚ)) (p : List ℚ) (x y z a : Option ℚ)
    (mf : Bool) (h0 : badAxis R 0 x = false) (h1 : badAxis R 1 y = false)
    (h2 : badAxis R 2 z = false) (h3 : badAxis R 3 a = false) :
    scanner_set_position R p x y z a mf =
      ⟨if mf then -1 else 0,
       applyAxis 3 a (applyAxis 2 z (applyAxis 1 y (applyAxis 0 x p))), true⟩ := by
  cases mf <;>
    simp [scanner_set_position, axStep_of_good, h0, h1, h2, h3]

/-- Claim C1, counterexample. With range `[0,1]` on every axis and
position `[0,0,0,0]`, the call `scanner_set_position(x=1, y=2)` fails
the y range check and issues no move, yet the in-range x has already
been written into the internal position, so `get_scanner_position`
changes — refuting "the internal Position is left completely
unchanged". -/
theorem scanner_set_position_partial_write_cex :
    scanner_set_position [(0, 1), (0, 1), (0, 1), (0, 1)] [0, 0, 0, 0]
      (some 1) (some 2) none none false = ⟨-1, [1, 0, 0, 0], false⟩ ∧
    get_scanner_position [1, 0, 0, 0] ≠ get_scanner_position [0, 0, 0, 0] := by
  exact ⟨by decide, by decide⟩

/-- Claim C1, amended. A call with some provided coordinate strictly
outside its axis's inclusive bounds returns `-1` and issues no move
command, but the internal Position keeps the writes of the provided
in-range axes processed before the first failing one (axes from the
first failing one onward are untouched). -/
theorem scanner_set_position_range_error (R : List (ℚ × ℚ)) (p : List ℚ)
    (x y z a : Option ℚ) (mf : Bool)
    (h : (badAxis R 0 x || badAxis R 1 y || badAxis R 2 z || badAxis R 3 a)
      = true) :
    scanner_set_position R p x y z a mf =
      ⟨-1, posAtValidationFailure R p x y z, false⟩ := by
  cases h0 : badAxis R 0 x with
  | true => simp [scanner_set_position, axStep_of_bad, h0, posAtValidationFailure]
  | false =>
      cases h1 : badAxis R 1 y with
      | true =>
          simp [scanner_set_position, axStep_of_good, axStep_of_bad, h0, h1,
            posAtValidationFailure]
      | false =>
          cases h2 : badAxis R 2 z with
          | true =>
              simp [scanner_set_position, axStep_of_good, axStep_of_bad, h0,
                h1, h2, posAtValidationFailure]
          | false =>
              cases h3 : badAxis R 3 a with
              | true =>
                  simp [scanner_set_position, axStep_of_good, axStep_of_bad,
                    h0, h1, h2, h3, posAtValidationFailure]
              | false => simp [h0, h1, h2, h3] at h

/-- Claim C1, witness for the amended theorem at a concrete input. -/
theorem scanner_set_position_range_error_case :
    scanner_set_position [(0, 1), (0, 1), (0, 1), (0, 1)] [0, 0, 0, 0]
      (some 1) (some 2) none none false = ⟨-1, [1, 0, 0, 0], false⟩ :=
  (scanner_set_position_range_error [(0, 1), (0, 1), (0, 1), (0, 1)]
    [0, 0, 0, 0] (some 1) (some 2) none none false (by decide)).trans (by decide)

/-- Claim C3, counterexample. All provided coordinates pass validation
and the stage's `move_abs` raises: the call returns `-1`, but the
internal Position has already been updated to the attempted target —
refuting "the internal Position is not updated for that call". -/
theorem scanner_set_position_device_fail_cex :
    scanner_set_position [(0, 1), (0, 1), (0, 1), (0, 1)] [0, 0, 0, 0]
      (some 1) none none none true = ⟨-1, [1, 0, 0, 0], true⟩ ∧
    get_scanner_position [1, 0, 0, 0] ≠ get_scanner_position [0, 0, 0, 0] := by
  exact ⟨by decide, by decide⟩

/-- Claim C3, amended. When every provided coordinate passes its range
check, `move_abs` is invoked and the internal Position is updated
component-wise for exactly the provided axes (omitted axes keep their
previous value) — and this update happens whether or not the device
call fails: on device failure the call returns `-1` with the position
already at the attempted target, on success it returns `0`. -/
theorem scanner_set_position_after_validation (R : List (ℚ × ℚ))
    (p : List ℚ) (x y z a : Option ℚ) (mf : Bool)
    (h0 : badAxis R 0 x = false) (h1 : badAxis R 1 y = false)
    (h2 : badAxis R 2 z = false) (h3 : badAxis R 3 a = false) :
    scanner_set_position R p x y z a mf =
      ⟨if mf then -1 else 0,
       applyAxis 3 a (applyAxis 2 z (applyAxis 1 y (applyAxis 0 x p))), true⟩ :=
  setPos_good R p x y z a mf h0 h1 h2 h3

/-- Claim C3, witness for the amended theorem at a concrete input. -/
theorem scanner_set_position_after_validation_case :
    scanner_set_position [(0, 1), (0, 1), (0, 1), (0, 1)] [0, 0, 0, 0]
      (some 1) none none none true = ⟨-1, [1, 0, 0, 0], true⟩ :=
  (scanner_set_position_after_validation [(0, 1), (0, 1), (0, 1), (0, 1)]
    [0, 0, 0, 0] (some 1) none none none true
    (by decide) (by decide) (by decide) (by decide)).trans (by decide)

/-- Claim C4, code bug. A valid table round-trips through
`set_position_range` / `get_position_range`, and a wrong axis count
returns `-1` with the stored table unchanged; but a wrong pair arity or
inverted bounds makes the error-log call itself raise (its `{:d}`
format spec is applied to the offending list), so the call propagates
an exception instead of reporting `-1` — the stored table is still
unchanged, since the exception fires before the assignment. -/
theorem set_position_range_log_crash :
    set_position_range [[0, 1], [0, 1], [0, 1], [0, 1]]
        (.table [[0, 1], [0, 2], [0, 3], [0, 4]]) =
      .ok (0, [[0, 1], [0, 2], [0, 3], [0, 4]]) ∧
    get_position_range [[0, 1], [0, 2], [0, 3], [0, 4]] =
      [[0, 1], [0, 2], [0, 3], [0, 4]] ∧
    set_position_range [[0, 1], [0, 1], [0, 1], [0, 1]]
        (.table [[0, 1], [0, 1], [0, 1]]) =
      .ok (-1, [[0, 1], [0, 1], [0, 1], [0, 1]]) ∧
    set_position_range [[0, 1], [0, 1], [0, 1], [0, 1]]
        (.table [[0, 1], [0], [0, 1], [0, 1]]) = .error () ∧
    set_position_range [[0, 1], [0, 1], [0, 1], [0, 1]]
        (.table [[1, 0], [0, 1], [0, 1], [0, 1]]) = .error () :=
  ⟨rfl, rfl, rfl, rfl, rfl⟩

/-- Claim C9, confirmed. Calling `set_position_range` with no argument
replaces the stored table with the default
`[[0, 1e-6], [0, 1e-6], [0, 1e-6], [0, 1e-6]]` and returns `0`, so a
subsequent `get_position_range` returns the default table. -/
theorem set_position_range_none_defaults (stored : List (List ℚ)) :
    set_position_range stored .noneArg = .ok (0, defaultRange) ∧
    get_position_range defaultRange =
      [[0, 1 / 1000000], [0, 1 / 1000000], [0, 1 / 1000000],
       [0, 1 / 1000000]] := by
  constructor
  · norm_num [set_position_range, checkEntries, defaultRange]
  · rfl

/-- Claim C6, counterexample. The first `get_pos` fails with `KeyError`
(a second attempt would even succeed): no retry is made (1 attempt, not
2), the internal Position is seeded with the degenerate
`np.array(None)` rather than the range midpoints `[1, 1, 1, 1]`, and
`on_activate` reports success `0` rather than an error. -/
theorem activation_keyerror_cex :
    activateSeed [(0, 2), (0, 2), (0, 2), (0, 2)] .raiseKey
        (.ret (some 1) (some 1) (some 1) none) =
      ⟨none, 0, 1⟩ ∧
    midpoints [(0, 2), (0, 2), (0, 2), (0, 2)] = [1, 1, 1, 1] ∧
    (InitResult.mk none 0 1).pos ≠ some [1, 1, 1, 1] ∧
    (InitResult.mk none 0 1).attempts ≠ 2 ∧
    (InitResult.mk none 0 1).code ≠ -1 := by
  refine ⟨rfl, ?_, by simp, by simp, by decide⟩
  simp only [midpoints, show List.range 4 = [0, 1, 2, 3] from rfl,
    List.map_cons, List.map_nil, List.getD_cons_zero, List.getD_cons_succ]
  norm_num

/-- Claim C6, amended. Only a non-KeyError failure of the first startup
position read triggers the single retry after the short pause; a
KeyError failure is never retried and seeds the position with `None`
while activation reports success `0` (also after a retried read that
fails with KeyError). The midpoint fallback with error code `-1`
happens exactly when the first read fails with a non-KeyError exception
and the retried read raises a non-KeyError exception as well. -/
theorem activation_retry_fallback (R : List (ℚ × ℚ))
    (a1 a2 : GetPosAttempt) :
    (readAttempt a1 = .keyErr → activateSeed R a1 a2 = ⟨none, 0, 1⟩) ∧
    (readAttempt a1 = .otherErr → (activateSeed R a1 a2).attempts = 2) ∧
    (readAttempt a1 = .otherErr → readAttempt a2 = .keyErr →
      activateSeed R a1 a2 = ⟨none, 0, 2⟩) ∧
    (readAttempt a1 = .otherErr → readAttempt a2 = .otherErr →
      activateSeed R a1 a2 = ⟨some (midpoints R), -1, 2⟩) := by
  refine ⟨fun h => ?_, fun h => ?_, fun h h2 => ?_, fun h h2 => ?_⟩
  · simp [activateSeed, getScannerPositionInit, h]
  · cases h2 : readAttempt a2 <;>
      simp [activateSeed, getScannerPositionInit, h, h2]
  · simp [activateSeed, getScannerPositionInit, h, h2]
  · simp [activateSeed, getScannerPositionInit, h, h2]

/-- Claim C6, witness for the amended theorem: both reads raise
non-KeyError exceptions, so the position falls back to the midpoints
with code `-1` after exactly two attempts. -/
theorem activation_retry_fallback_case :
    activateSeed [(0, 2), (0, 2), (0, 2), (0, 2)] .raiseOther .raiseOther =
      ⟨some [1, 1, 1, 1], -1, 2⟩ := by
  have h := (activation_retry_fallback [(0, 2), (0, 2), (0, 2), (0, 2)]
    .raiseOther .raiseOther).2.2.2 rfl rfl
  rw [h]
  simp only [midpoints, show List.range 4 = [0, 1, 2, 3] from rfl,
    List.map_cons, List.map_nil, List.getD_cons_zero, List.getD_cons_succ,
    InitResult.mk.injEq, Option.some.injEq, List.cons.injEq]
  norm_num

/-- Claim C10, confirmed. Whenever a startup `get_pos` read succeeds
(at the first attempt or at the retry), the seeded internal Position is
`[x, y, z, 0]`: its fourth coordinate is `0` no matter what value the
stage reports for a fourth axis, so `get_scanner_position` right after
successful activation returns `0` for the a axis. -/
theorem activation_seed_a_axis_zero (R : List (ℚ × ℚ)) (x y z : ℚ)
    (aStage : Option ℚ) (a2 : GetPosAttempt) :
    (activateSeed R (.ret (some x) (some y) (some z) aStage) a2).pos =
      some [x, y, z, 0] ∧
    (activateSeed R .raiseOther (.ret (some x) (some y) (some z) aStage)).pos =
      some [x, y, z, 0] ∧
    get_scanner_position [x, y, z, 0] = [x, y, z, 0] :=
  ⟨rfl, rfl, rfl⟩

lemma scanPixels_samples (R : List (ℚ × ℚ)) (col : Nat → List ℚ) (k : Nat)
    (d : ℚ) (buf : Nat → List ℚ) (mf : Nat → Bool) :
    ∀ (L : List Nat) (p : List ℚ), ∃ evs,
      scanPixels R col k d buf false mf L p =
        .ok (L.map fun i => listMean (lastSlice k (buf i)), evs) := by
  intro L
  induction L with
  | nil => intro p; exact ⟨[], rfl⟩
  | cons i rest ih =>
      intro p
      obtain ⟨evs, hevs⟩ := ih (scanner_set_position R p
        (some ((col i).getD 0 0)) (some ((col i).getD 1 0))
        (some ((col i).getD 2 0)) (some ((col i).getD 3 0)) (mf i)).pos
      have hcond : ¬(i = 0 ∧ false = true) := by simp
      simp only [scanPixels, hevs, if_neg hcond]
      exact ⟨_, rfl⟩

lemma filter_mev (b : Bool) (t : List ℚ) :
    List.filter nonMoveEv (if b then [ScanEvent.move t] else []) = [] := by
  cases b <;> rfl

lemma count_mev (b : Bool) (t : List ℚ) :
    (if b then [ScanEvent.move t] else []).count ScanEvent.onTarget = 0 := by
  cases b <;> rfl

lemma sum_indicator_range (N : Nat) (hN : 1 ≤ N) :
    ((List.range N).map fun i => if i = 0 then (1 : Nat) else 0).sum = 1 := by
  induction N with
  | zero => omega
  | succ n ih =>
      rw [List.range_succ]
      by_cases hn : n = 0
      · subst hn; rfl
      · rw [List.map_append, List.sum_append, ih (by omega)]
        simp [hn]

lemma cons_bind' {α β : Type} (x : α) (xs : List α) (f : α → List β) :
    (x :: xs).bind f = f x ++ xs.bind f := rfl

lemma scanPixels_trace_events (R : List (ℚ × ℚ)) (col : Nat → List ℚ)
    (k : Nat) (d : ℚ) (buf : Nat → List ℚ) (mf : Nat → Bool)
    (p0 : List ℚ) :
    ∀ (n a : Nat),
      scanPixels R col k d buf false mf (List.range' a n)
          (posBefore R col mf p0 a) =
        .ok ((List.range' a n).map fun i => listMean (lastSlice k (buf i)),
             (List.range' a n).bind (pixelTrace R col mf d p0)) := by
  intro n
  induction n with
  | zero => intro a; rfl
  | succ m ih =>
      intro a
      have hcond : ¬(a = 0 ∧ false = true) := by simp
      show scanPixels R col k d buf false mf (a :: List.range' (a + 1) m)
          (posBefore R col mf p0 a) = _
      simp only [scanPixels, if_neg hcond]
      rw [show (scanner_set_position R (posBefore R col mf p0 a)
          (some ((col a).getD 0 0)) (some ((col a).getD 1 0))
          (some ((col a).getD 2 0)) (some ((col a).getD 3 0)) (mf a)) =
          pixelStep R col mf a (posBefore R col mf p0 a) from rfl]
      rw [show (pixelStep R col mf a (posBefore R col mf p0 a)).pos =
          posBefore R col mf p0 (a + 1) from rfl]
      rw [ih (a + 1)]
      rw [show List.range' a (m + 1) = a :: List.range' (a + 1) m from rfl]
      simp [pixelTrace, cons_bind', posBefore]

lemma filter_pixelTrace (R : List (ℚ × ℚ)) (col : Nat → List ℚ)
    (mf : Nat → Bool) (d : ℚ) (p0 : List ℚ) :
    ∀ L : List Nat,
      (L.bind (pixelTrace R col mf d p0)).filter nonMoveEv =
        L.bind fun i =>
          [(if i = 0 then ScanEvent.onTarget else ScanEvent.sleep d),
           ScanEvent.sample i] := by
  intro L
  induction L with
  | nil => rfl
  | cons i rest ih =>
      rw [cons_bind', cons_bind', List.filter_append, ih]
      congr 1
      simp only [pixelTrace]
      rw [List.filter_append, filter_mev]
      by_cases hi : i = 0 <;> simp [nonMoveEv, hi]

lemma count_pixelTrace (R : List (ℚ × ℚ)) (col : Nat → List ℚ)
    (mf : Nat → Bool) (d : ℚ) (p0 : List ℚ) :
    ∀ L : List Nat,
      (L.bind (pixelTrace R col mf d p0)).count ScanEvent.onTarget =
        (L.map fun i => if i = 0 then (1 : Nat) else 0).sum := by
  intro L
  induction L with
  | nil => rfl
  | cons i rest ih =>
      rw [cons_bind', List.count_append, ih, List.map_cons,
        List.sum_cons]
      congr 1
      simp only [pixelTrace]
      rw [List.count_append, count_mev]
      by_cases hi : i = 0
      · subst hi; rfl
      · simp [List.count_cons, hi]

/-- Claim C2, confirmed. For a well-formed 4×N line path (N ≥ 1), with
`on_target` not raising, `scan_line` returns exactly N samples in input
pixel order, shaped as an N×1 column, and the i-th sample is the
arithmetic mean of the `dwell_cnt_bins` most recent entries of channel 0
of the counter buffer as read after visiting pixel i (the buffers are
assumed to hold at least `dwell_cnt_bins ≥ 1` entries). -/
theorem scan_line_returns_column_of_means (R : List (ℚ × ℚ)) (p0 : List ℚ)
    (rows : List (List ℚ)) (N k : Nat) (d : ℚ) (buf : Nat → List ℚ)
    (mf : Nat → Bool)
    (hlen : rows.length = 4) (hrect : ∀ r ∈ rows, r.length = N)
    (hN : 1 ≤ N) (hk : 1 ≤ k) (hbuf : ∀ i, i < N → k ≤ (buf i).length) :
    ∃ evs,
      scan_line R p0 (.arr2d rows) k d buf false mf =
        .ok ((List.range N).map fun i =>
          [listMean ((buf i).drop ((buf i).length - k))]) evs ∧
      ((List.range N).map fun i =>
        [listMean ((buf i).drop ((buf i).length - k))]).length = N ∧
      ∀ i, i < N → ((buf i).drop ((buf i).length - k)).length = k := by
  obtain ⟨r0, rest, rfl⟩ : ∃ r0 rest, rows = r0 :: rest := by
    cases rows with
    | nil => simp at hlen
    | cons a b => exact ⟨a, b, rfl⟩
  have h0 : r0.length = N := hrect r0 (by simp)
  obtain ⟨evs, hevs⟩ := scanPixels_samples R
    (fun i => (r0 :: rest).map fun r => r.getD i 0) k d buf mf
    (List.range N) p0
  refine ⟨evs, ?_, by simp, ?_⟩
  · simp only [scan_line, h0]
    rw [if_neg (by omega)]
    rw [if_neg (show ¬((r0 :: rest).length < 4) by rw [hlen]; omega)]
    rw [hevs]
    have hk0 : ¬(k = 0) := by omega
    simp [lastSlice, hk0, List.map_map, Function.comp]
  · intro i hi
    rw [List.length_drop]
    have := hbuf i hi
    omega

/-- Claim C2, witness: a one-pixel line over a buffer `[5]` with one
dwell bin yields the single-column result `[[5]]`. -/
theorem scan_line_returns_column_of_means_case :
    ∃ evs, scan_line [(0, 1), (0, 1), (0, 1), (0, 1)] [0, 0, 0, 0]
        (.arr2d [[0], [0], [0], [0]]) 1 0 (fun _ => [5]) false
        (fun _ => false) = .ok [[5]] evs := by
  obtain ⟨evs, h, -, -⟩ := scan_line_returns_column_of_means
    [(0, 1), (0, 1), (0, 1), (0, 1)] [0, 0, 0, 0] [[0], [0], [0], [0]]
    1 1 0 (fun _ => [5]) (fun _ => false) (by decide) (by decide)
    (by decide) (by decide) (fun i _ => by norm_num)
  refine ⟨evs, ?_⟩
  rw [h]
  norm_num [listMean, show List.range 1 = [0] from rfl]

/-- Claim C5, counterexample. A 1-D array-typed input (here `[0, 0, 0]`)
is not a well-formed 4×N structure, yet `scan_line` does not return the
single-element sentinel: the shape lookup `np.shape(line_path)[1]`
raises `IndexError` (before any stage motion), refuting the claim that
every malformed input yields the sentinel. -/
theorem scan_line_wrong_shape_cex :
    scan_line [(0, 1), (0, 1), (0, 1), (0, 1)] [0, 0, 0, 0]
      (.arr1d [0, 0, 0]) 1 0 (fun _ => [5]) false (fun _ => false) =
      .raised [] ∧
    (ScanResult.raised [] : ScanResult) ≠ .sentinel :=
  ⟨rfl, by decide⟩

/-- Claim C5, amended. `scan_line` returns the single-element failure
sentinel exactly when the input fails the `isinstance` array-type check
(and then no motion is performed); an array-typed input that is not 4×N
is not guarded by the sentinel — a 1-D array instead raises at the
shape lookup, still before any stage motion (empty event trace). -/
theorem scan_line_sentinel_iff_not_array (R : List (ℚ × ℚ)) (p0 : List ℚ)
    (k : Nat) (d : ℚ) (buf : Nat → List ℚ) (onTR : Bool)
    (mf : Nat → Bool) :
    (∀ input, scan_line R p0 input k d buf onTR mf = .sentinel ↔
      input = .notArray) ∧
    (∀ v, scan_line R p0 (.arr1d v) k d buf onTR mf = .raised []) := by
  constructor
  · intro input
    constructor
    · intro h
      cases input with
      | notArray => rfl
      | arr1d v => exact ScanResult.noConfusion h
      | arr2d rows =>
          exfalso
          cases rows with
          | nil => exact ScanResult.noConfusion h
          | cons r0 rest =>
              simp only [scan_line] at h
              by_cases h0 : r0.length = 0
              · rw [if_pos h0] at h; exact ScanResult.noConfusion h
              · rw [if_neg h0] at h
                by_cases h4 : (r0 :: rest).length < 4
                · rw [if_pos h4] at h; exact ScanResult.noConfusion h
                · rw [if_neg h4] at h
                  cases hs : scanPixels R
                      (fun i => (r0 :: rest).map fun r => r.getD i 0) k d
                      buf onTR mf (List.range r0.length) p0 with
                  | error evs =>
                      rw [hs] at h; exact ScanResult.noConfusion h
                  | ok pr =>
                      obtain ⟨ss, evs⟩ := pr
                      rw [hs] at h; exact ScanResult.noConfusion h
    · rintro rfl; rfl
  · intro v; rfl

/-- Claim C5, witness for the amended theorem: a non-array input
returns the sentinel. -/
theorem scan_line_sentinel_iff_not_array_case :
    scan_line [(0, 1), (0, 1), (0, 1), (0, 1)] [0, 0, 0, 0] .notArray 1 0
      (fun _ => [5]) false (fun _ => false) = .sentinel :=
  ((scan_line_sentinel_iff_not_array [(0, 1), (0, 1), (0, 1), (0, 1)]
    [0, 0, 0, 0] 1 0 (fun _ => [5]) false (fun _ => false)).1
    .notArray).mpr rfl

/-- Claim C7, confirmed. For every well-formed 4×N line (N ≥ 1), with
`on_target` not raising, the full event trace of `scan_line` is the
concatenation, over pixels `i = 0 .. N-1` in input order, of
`pixelTrace`: first pixel `i`'s move command (present exactly when its
coordinates pass validation), then — for pixel 0 — the `on_target`
barrier with no dwell sleep, and — for every pixel i ≥ 1 — a sleep of
the configured dwell delay with no barrier, then the pixel's counter
sample. So the barrier is invoked after commanding pixel 0 and before
sampling it; moreover the move-filtered schedule is exactly the
barrier/sleep-then-sample block sequence, and the barrier occurs
exactly once in the whole trace. -/
theorem scan_line_event_trace (R : List (ℚ × ℚ)) (p0 : List ℚ)
    (rows : List (List ℚ)) (N k : Nat) (d : ℚ) (buf : Nat → List ℚ)
    (mf : Nat → Bool)
    (hlen : rows.length = 4) (hrect : ∀ r ∈ rows, r.length = N)
    (hN : 1 ≤ N) :
    scan_line R p0 (.arr2d rows) k d buf false mf =
      .ok ((List.range N).map fun i => [listMean (lastSlice k (buf i))])
        ((List.range N).bind
          (pixelTrace R (fun i => rows.map fun r => r.getD i 0) mf d p0)) ∧
    ((List.range N).bind
        (pixelTrace R (fun i => rows.map fun r => r.getD i 0) mf d
          p0)).filter nonMoveEv =
      ((List.range N).bind fun i =>
        [(if i = 0 then ScanEvent.onTarget else ScanEvent.sleep d),
         ScanEvent.sample i]) ∧
    ((List.range N).bind
        (pixelTrace R (fun i => rows.map fun r => r.getD i 0) mf d
          p0)).count ScanEvent.onTarget = 1 := by
  obtain ⟨r0, rest, rfl⟩ : ∃ r0 rest, rows = r0 :: rest := by
    cases rows with
    | nil => simp at hlen
    | cons a b => exact ⟨a, b, rfl⟩
  have h0 : r0.length = N := hrect r0 (by simp)
  have hmain := scanPixels_trace_events R
    (fun i => (r0 :: rest).map fun r => r.getD i 0) k d buf mf p0 N 0
  rw [show posBefore R (fun i => (r0 :: rest).map fun r => r.getD i 0)
      mf p0 0 = p0 from rfl, ← List.range_eq_range'] at hmain
  refine ⟨?_, filter_pixelTrace R _ mf d p0 (List.range N), ?_⟩
  · simp only [scan_line, h0]
    rw [if_neg (by omega)]
    rw [if_neg (show ¬((r0 :: rest).length < 4) by rw [hlen]; omega)]
    rw [hmain]
    simp [List.map_map, Function.comp]
  · rw [count_pixelTrace]
    exact sum_indicator_range N hN

/-- Claim C7, witness at a one-pixel line. -/
theorem scan_line_event_trace_case :
    scan_line [(0, 1), (0, 1), (0, 1), (0, 1)] [0, 0, 0, 0]
        (.arr2d [[0], [0], [0], [0]]) 1 0 (fun _ => [5]) false
        (fun _ => false) =
      .ok ((List.range 1).map fun i =>
          [listMean (lastSlice 1 ((fun _ => [(5 : ℚ)]) i))])
        ((List.range 1).bind
          (pixelTrace [(0, 1), (0, 1), (0, 1), (0, 1)]
            (fun i => [[0], [0], [0], [0]].map fun r => r.getD i 0)
            (fun _ => false) 0 [0, 0, 0, 0])) ∧
    ((List.range 1).bind
        (pixelTrace [(0, 1), (0, 1), (0, 1), (0, 1)]
          (fun i => [[0], [0], [0], [0]].map fun r => r.getD i 0)
          (fun _ => false) 0 [0, 0, 0, 0])).filter nonMoveEv =
      ((List.range 1).bind fun i =>
        [(if i = 0 then ScanEvent.onTarget else ScanEvent.sleep 0),
         ScanEvent.sample i]) ∧
    ((List.range 1).bind
        (pixelTrace [(0, 1), (0, 1), (0, 1), (0, 1)]
          (fun i => [[0], [0], [0], [0]].map fun r => r.getD i 0)
          (fun _ => false) 0 [0, 0, 0, 0])).count ScanEvent.onTarget = 1 :=
  scan_line_event_trace [(0, 1), (0, 1), (0, 1), (0, 1)] [0, 0, 0, 0]
    [[0], [0], [0], [0]] 1 1 0 (fun _ => [5]) (fun _ => false)
    (by decide) (by decide) (by decide)

/-- Claim C8, confirmed. Once a line scan over a well-formed 4×N path
(N ≥ 1) has started, it either raises (propagating the exception, with
no value returned) or returns a full result with exactly N samples — it
never returns a partial prefix of the pixels. -/
theorem scan_line_total_or_raises (R : List (ℚ × ℚ)) (p0 : List ℚ)
    (rows : List (List ℚ)) (N k : Nat) (d : ℚ) (buf : Nat → List ℚ)
    (onTR : Bool) (mf : Nat → Bool)
    (hlen : rows.length = 4) (hrect : ∀ r ∈ rows, r.length = N)
    (hN : 1 ≤ N) :
    (∃ evs, scan_line R p0 (.arr2d rows) k d buf onTR mf = .raised evs) ∨
    (∃ ss evs, scan_line R p0 (.arr2d rows) k d buf onTR mf =
      .ok ss evs ∧ ss.length = N) := by
  obtain ⟨r0, rest, rfl⟩ : ∃ r0 rest, rows = r0 :: rest := by
    cases rows with
    | nil => simp at hlen
    | cons a b => exact ⟨a, b, rfl⟩
  have h0 : r0.length = N := hrect r0 (by simp)
  cases onTR with
  | true =>
      left
      obtain ⟨m, rfl⟩ : ∃ m, N = m + 1 := ⟨N - 1, by omega⟩
      simp only [scan_line, h0]
      rw [if_neg (by omega)]
      rw [if_neg (show ¬((r0 :: rest).length < 4) by rw [hlen]; omega)]
      rw [List.range_succ_eq_map]
      simp only [scanPixels,
        if_pos (show (0 = 0 ∧ true = true) from ⟨rfl, rfl⟩)]
      exact ⟨_, rfl⟩
  | false =>
      right
      obtain ⟨evs, hevs⟩ := scanPixels_samples R
        (fun i => (r0 :: rest).map fun r => r.getD i 0) k d buf mf
        (List.range N) p0
      refine ⟨((List.range N).map fun i =>
          listMean (lastSlice k (buf i))).map (fun s => [s]), evs, ?_,
        by simp⟩
      simp only [scan_line, h0]
      rw [if_neg (by omega)]
      rw [if_neg (show ¬((r0 :: rest).length < 4) by rw [hlen]; omega)]
      rw [hevs]

/-- Claim C8, witness: with `on_target` raising at the first pixel, the
scan raises rather than returning a partial result. -/
theorem scan_line_total_or_raises_case :
    (∃ evs, scan_line [(0, 1), (0, 1), (0, 1), (0, 1)] [0, 0, 0, 0]
      (.arr2d [[0], [0], [0], [0]]) 1 0 (fun _ => [5]) true
      (fun _ => false) = .raised evs) ∨
    (∃ ss evs, scan_line [(0, 1), (0, 1), (0, 1), (0, 1)] [0, 0, 0, 0]
      (.arr2d [[0], [0], [0], [0]]) 1 0 (fun _ => [5]) true
      (fun _ => false) = .ok ss evs ∧ ss.length = 1) :=
  scan_line_total_or_raises [(0, 1), (0, 1), (0, 1), (0, 1)] [0, 0, 0, 0]
    [[0], [0], [0], [0]] 1 1 0 (fun _ => [5]) true (fun _ => false)
    (by decide) (by decide) (by decide)

end ScannerMotorInterfuse
